import Mathlib

/-
  Verification development for the stagelights casting-network backend.

  Each concept class of the source is shallowly embedded: a document
  collection becomes a Lean list of document structures, MongoDB-style
  operations become pure functions on those lists (readOne = first match,
  createOne = append, updateOne = update the first match, popOne = remove
  the first match, readMany = filter), and a thrown error becomes the
  error branch of an explicit result type.  Dates are modelled as natural
  numbers of milliseconds since the epoch with a zero timezone offset.
  Identifiers are modelled as naturals (or as strings where the source
  compares identifier strings against JavaScript property keys).
-/

namespace Stagelights

/-- Error taxonomy of src/server/concepts/errors: NotFoundError,
NotAllowedError (with its subclasses), BadValuesError.  Only the kind and
the message matter to the claims. -/
inductive Err : Type where
  | notFound (msg : String)
  | notAllowed (msg : String)
  | badValues (msg : String)
  deriving Repr, DecidableEq

/-- Result of a concept operation: the ok value or the thrown error. -/
inductive Res (α : Type) : Type where
  | ok (val : α)
  | err (e : Err)
  deriving Repr, DecidableEq

/-- Whether an operation succeeded. -/
def Res.isOk {α : Type} : Res α → Bool
  | .ok _ => true
  | .err _ => false

/-- Whether an operation failed with a NotAllowed error. -/
def Res.isNotAllowed {α : Type} : Res α → Bool
  | .ok _ => false
  | .err (.notAllowed _) => true
  | .err _ => false

/- ===== VoteConcept (src/unnamed/part_002, lines 6-76) ===== -/

/-- VoteDoc of src/unnamed/part_002: user, parent and polarity. -/
structure VoteDoc : Type where
  user : Nat
  parent : Nat
  upvote : Bool
  deriving Repr, DecidableEq

/-- Return value of VoteConcept.vote: the message and the `new` flag
(`new` is renamed `isNew` here). -/
structure VoteResult : Type where
  msg : String
  isNew : Bool
  deriving Repr, DecidableEq

/-- this.votes.readOne of the pair filter: first stored vote of the
given user on the given parent. -/
def votesReadOne (votes : List VoteDoc) (user parent : Nat) : Option VoteDoc :=
  votes.find? (fun v => v.user == user && v.parent == parent)

/-- this.votes.updateOne of the pair filter with an upvote patch:
flip the polarity of the first matching stored vote. -/
def votesUpdateOne (votes : List VoteDoc) (user parent : Nat) (upvote : Bool) :
    List VoteDoc :=
  match votes with
  | [] => []
  | v :: rest =>
    if v.user == user && v.parent == parent then
      { v with upvote := upvote } :: rest
    else
      v :: votesUpdateOne rest user parent upvote

/-- VoteConcept.vote (src/unnamed/part_002, lines 22-36).  The guard
`if (user && parent)` always passes for ObjectId arguments (objects are
truthy), so the BadValuesError branch is unreachable and is dropped.
No existing vote: create one.  Existing vote of the same polarity:
return a message, leave the collection untouched.  Existing vote of the
opposite polarity: update the stored polarity. -/
def vote (user parent : Nat) (upvote : Bool) (votes : List VoteDoc) :
    Res (VoteResult × List VoteDoc) :=
  match votesReadOne votes user parent with
  | some v =>
    if v.upvote == upvote then
      .ok (⟨"vote already exists with the same value", false⟩, votes)
    else
      .ok (⟨"vote value updated", false⟩, votesUpdateOne votes user parent upvote)
  | none =>
    .ok (⟨"Vote successfully created!", true⟩, votes ++ [⟨user, parent, upvote⟩])

/-- Claim C1 (counterexample): two successive identical calls
vote(u,p,true) do NOT return the state to "no vote": starting from the
empty collection, the first call stores the vote and the second call
answers "vote already exists with the same value" leaving the stored
vote in place, so a vote by user 0 on parent 1 is still stored. -/
theorem claim_C1_counterexample :
    vote 0 1 true [] =
      .ok (⟨"Vote successfully created!", true⟩, [⟨0, 1, true⟩]) ∧
    vote 0 1 true [⟨0, 1, true⟩] =
      .ok (⟨"vote already exists with the same value", false⟩, [⟨0, 1, true⟩]) ∧
    votesReadOne [⟨0, 1, true⟩] 0 1 ≠ none := by
  decide

/-- Claim C1 (amended): calling Vote.vote(u, p, polarity) when a vote by
u on p with the same polarity already exists leaves the stored vote
unchanged and reports "vote already exists with the same value" with
new = false; the vote is not deleted, so two successive identical calls
leave exactly the state produced by the first call. -/
theorem claim_C1_amended (votes : List VoteDoc) (u p : Nat) (b : Bool)
    (v : VoteDoc) (hfind : votesReadOne votes u p = some v)
    (hpol : v.upvote = b) :
    vote u p b votes =
      .ok (⟨"vote already exists with the same value", false⟩, votes) := by
  unfold vote
  rw [hfind]
  simp [hpol]

/-- Claim C1 (witness): the amended theorem applied at user 0, parent 1,
polarity true, over the one-vote collection. -/
theorem claim_C1_witness :
    vote 0 1 true [⟨0, 1, true⟩] =
      .ok (⟨"vote already exists with the same value", false⟩, [⟨0, 1, true⟩]) :=
  claim_C1_amended [⟨0, 1, true⟩] 0 1 true ⟨0, 1, true⟩ (by decide) (by decide)

/- ===== JavaScript `in` on array literals ===== -/

/-- Own and inherited property names of Object.prototype, visible to the
JavaScript `in` operator through the prototype chain. -/
def jsObjectProtoProps : List String :=
  ["hasOwnProperty", "isPrototypeOf", "propertyIsEnumerable",
   "toLocaleString", "toString", "valueOf", "constructor",
   "__defineGetter__", "__defineSetter__", "__lookupGetter__",
   "__lookupSetter__", "__proto__"]

/-- Method and accessor names of Array.prototype, visible to the
JavaScript `in` operator through the prototype chain. -/
def jsArrayProtoProps : List String :=
  ["at", "concat", "copyWithin", "entries", "every", "fill", "filter",
   "find", "findIndex", "findLast", "findLastIndex", "flat", "flatMap",
   "forEach", "includes", "indexOf", "join", "keys", "lastIndexOf",
   "map", "pop", "push", "reduce", "reduceRight", "reverse", "shift",
   "slice", "some", "sort", "splice", "toLocaleString", "toReversed",
   "toSorted", "toSpliced", "toString", "unshift", "values", "with"]

/-- Property keys of a JavaScript array literal of the given length:
the element indices as decimal strings, the own property `length`, and
the prototype-chain properties.  The `in` operator tests membership in
exactly this key set, never the element values. -/
def jsArrayKeys (len : Nat) : List String :=
  (List.range len).map Nat.repr ++ "length" :: jsArrayProtoProps ++ jsObjectProtoProps

/-- The JavaScript expression `s in arr` for an array literal `arr` of
the given length: a property-key test, not an element-membership test. -/
def jsInArray (s : String) (len : Nat) : Bool :=
  (jsArrayKeys len).contains s

/-- A string that is not equal to any member of a list none of whose
members has the same length is not contained in it. -/
theorem contains_eq_false_of_length (l : List String) (s : String)
    (hall : l.all (fun k => k.length != s.length) = true) :
    l.contains s = false := by
  induction l with
  | nil => rfl
  | cons a t ih =>
    simp only [List.all_cons, Bool.and_eq_true, bne_iff_ne, ne_eq] at hall
    have ha : (s == a) = false := by
      rcases h : s == a with _ | _
      · rfl
      · exact absurd (congrArg String.length (eq_of_beq h)).symm hall.1
    simp only [List.contains_cons, ha, Bool.false_or]
    exact ih (by simpa using hall.2)

/-- Every property key of a two-element JavaScript array literal has a
length different from 24, so no 24-character string is a key. -/
theorem jsInArray_two_hex (s : String) (hs : s.length = 24) :
    jsInArray s 2 = false := by
  unfold jsInArray
  apply contains_eq_false_of_length
  rw [hs]
  decide

/- ===== ApplicationConcept (src/server/concepts/application.ts) =====
   Identifiers of this concept are modelled as strings because the code
   compares identifier strings against JavaScript array property keys. -/

/-- Application status of src/server/concepts/application.ts. -/
inductive AppStatus : Type where
  | pending
  | approved
  | audition
  | rejected
  | withdrawn
  deriving Repr, DecidableEq

/-- The string the source uses for each status. -/
def AppStatus.toJs : AppStatus → String
  | .pending => "pending"
  | .approved => "approved"
  | .audition => "audition"
  | .rejected => "rejected"
  | .withdrawn => "withdrawn"

/-- ApplicationDoc of src/server/concepts/application.ts, lines 6-13,
with its _id made explicit. -/
structure ApplicationDoc : Type where
  id : String
  owner : String
  user : String
  status : AppStatus
  text : String
  media : List String
  applicationFor : String
  deriving Repr, DecidableEq

/-- this.applications.readOne of an _id filter: first stored application
with that id. -/
def appsReadOne (apps : List ApplicationDoc) (_id : String) :
    Option ApplicationDoc :=
  apps.find? (fun a => a.id == _id)

/-- this.applications.updateOne of an _id filter with a status patch:
set the status of the first matching stored application. -/
def appsUpdateStatus (apps : List ApplicationDoc) (_id : String)
    (newStatus : AppStatus) : List ApplicationDoc :=
  match apps with
  | [] => []
  | a :: rest =>
    if a.id == _id then
      { a with status := newStatus } :: rest
    else
      a :: appsUpdateStatus rest _id newStatus

/-- ApplicationConcept.doesntExist (lines 139-145).  The source reads
`const application = this.applications.readOne(...)` WITHOUT await, so
the NotFound test inspects a Promise, which is always truthy: the
NotFoundError branch is unreachable and the awaited return value is the
plain readOne result, possibly null. -/
def doesntExist (apps : List ApplicationDoc) (_id : String) :
    Option ApplicationDoc :=
  appsReadOne apps _id

/-- ApplicationConcept.checkStatusChange (lines 124-131).  The second
guard is `newStatus in ["approved", "audition", "rejected"]`: a
JavaScript property-key test against a three-element array literal,
embedded as jsInArray of the status string. -/
def checkStatusChange (user : String) (newStatus : AppStatus)
    (owner applier : String) : Res Unit :=
  if newStatus == .withdrawn && user != applier then
    .err (.notAllowed "withdrawing isn't the applier")
  else if jsInArray newStatus.toJs 3 && user != owner then
    .err (.notAllowed "can't change the status since they aren't the owner of the opportunity")
  else
    .ok ()

/-- ApplicationConcept.changeStatus (lines 83-89): look the application
up (doesntExist cannot throw, see above), take owner and applier strings
(empty when the application is absent), run checkStatusChange, then
update the stored status. -/
def changeStatus (user _id : String) (newStatus : AppStatus)
    (apps : List ApplicationDoc) : Res (List ApplicationDoc) :=
  let application := doesntExist apps _id
  let owner := (application.map (fun a => a.owner)).getD ""
  let applier := (application.map (fun a => a.user)).getD ""
  match checkStatusChange user newStatus owner applier with
  | .err e => .err e
  | .ok _ => .ok (appsUpdateStatus apps _id newStatus)

/-- The status filter of getAppsForOp (line 43): status is in
["approved", "audition", "rejected", "pending"] - a genuine MongoDB $in
value test this time, not a key test. -/
def statusInNonWithdrawn (s : AppStatus) : Bool :=
  s == .approved || s == .audition || s == .rejected || s == .pending

/-- The readMany filter of getAppsForOp (line 43): the applications of
the opportunity whose status passes the $in filter. -/
def appsForOpQuery (opId : String) (apps : List ApplicationDoc) :
    List ApplicationDoc :=
  apps.filter (fun a => a.applicationFor == opId && statusInNonWithdrawn a.status)

/-- ApplicationConcept.getAppsForOp (lines 42-49): read the applications
of the opportunity whose status passes the $in filter, take the owner of
the first one (`applications[0]?.owner ?? new ObjectId()` - a freshly
generated ObjectId differs from every existing id, so the comparison
then fails), and return them only to that owner. -/
def getAppsForOp (user opId : String) (apps : List ApplicationDoc) :
    Res (List ApplicationDoc) :=
  let applications := appsForOpQuery opId apps
  match applications.head? with
  | some first =>
    if user == first.owner then
      .ok applications
    else
      .err (.notAllowed "Not owner of opportunity so can't access this information")
  | none =>
    .err (.notAllowed "Not owner of opportunity so can't access this information")

/-- ApplicationConcept.getAppById (lines 68-76): the access test is
`user.toString() in [owner, creator]` - a JavaScript property-key test
against a two-element array literal, embedded as jsInArray. -/
def getAppById (_id user : String) (apps : List ApplicationDoc) :
    Res (Option ApplicationDoc) :=
  let application := doesntExist apps _id
  if jsInArray user 2 then
    .ok application
  else
    .err (.notAllowed "Not owner or applier. So can't view application")

/-- No status string is a property key of the three-element array
literal of checkStatusChange. -/
theorem jsInArray_status (s : AppStatus) : jsInArray s.toJs 3 = false := by
  cases s <;> decide

/-- Claim C2: for a stored application, changeStatus to withdrawn fails
NotAllowed when the actor differs from the stored applicant and succeeds
for the applicant; but changeStatus to approved, audition or rejected
succeeds for EVERY actor, owner or not, because the guard `newStatus in
["approved", "audition", "rejected"]` is a property-key test that is
always false - the owner check of the claim never runs.  The last three
conjuncts evaluate the code at the claim's failing inputs. -/
theorem claim_C2_main (apps : List ApplicationDoc) (_id user : String)
    (app : ApplicationDoc) (h : appsReadOne apps _id = some app) :
    (user ≠ app.user →
      changeStatus user _id .withdrawn apps =
        .err (.notAllowed "withdrawing isn't the applier")) ∧
    changeStatus app.user _id .withdrawn apps =
      .ok (appsUpdateStatus apps _id .withdrawn) ∧
    changeStatus user _id .approved apps =
      .ok (appsUpdateStatus apps _id .approved) ∧
    changeStatus user _id .audition apps =
      .ok (appsUpdateStatus apps _id .audition) ∧
    changeStatus user _id .rejected apps =
      .ok (appsUpdateStatus apps _id .rejected) := by
  have happ : jsInArray AppStatus.approved.toJs 3 = false := jsInArray_status _
  have haud : jsInArray AppStatus.audition.toJs 3 = false := jsInArray_status _
  have hrej : jsInArray AppStatus.rejected.toJs 3 = false := jsInArray_status _
  have hwit : jsInArray AppStatus.withdrawn.toJs 3 = false := jsInArray_status _
  refine ⟨fun hne => ?_, ?_, ?_, ?_, ?_⟩ <;>
    simp [changeStatus, doesntExist, h, checkStatusChange,
      happ, haud, hrej, hwit, bne_iff_ne, *]

/-- Claim C2 (witness): the theorem applied to a one-application
collection; actor "zz" is neither owner "oo" nor applicant "uu", yet the
approval call succeeds and stores the approved status. -/
theorem claim_C2_witness :
    changeStatus "zz" "a1" .approved
        [⟨"a1", "oo", "uu", .pending, "t", [], "op"⟩] =
      .ok [⟨"a1", "oo", "uu", .approved, "t", [], "op"⟩] :=
  (claim_C2_main [⟨"a1", "oo", "uu", .pending, "t", [], "op"⟩]
    "a1" "zz" ⟨"a1", "oo", "uu", .pending, "t", [], "op"⟩ (by decide)).2.2.1

/-- Claim C9 (counterexample): the owner "o" of opportunity "op" calls
getAppsForOp over a collection holding a withdrawn application and a
pending one for that opportunity; the result omits the withdrawn
application, so getAppsForOp does NOT return applications of every
status. -/
theorem claim_C9_counterexample :
    getAppsForOp "o" "op"
        [⟨"a1", "o", "u1", .withdrawn, "t", [], "op"⟩,
         ⟨"a2", "o", "u2", .pending, "t", [], "op"⟩] =
      .ok [⟨"a2", "o", "u2", .pending, "t", [], "op"⟩] ∧
    (⟨"a1", "o", "u1", .withdrawn, "t", [], "op"⟩ : ApplicationDoc).applicationFor
      = "op" ∧
    (⟨"a1", "o", "u1", .withdrawn, "t", [], "op"⟩ : ApplicationDoc) ∉
      [(⟨"a2", "o", "u2", .pending, "t", [], "op"⟩ : ApplicationDoc)] := by
  decide

/-- Claim C9 (amended): getAppsForOp returns exactly the opportunity's
applications whose status is not withdrawn (the $in filter excludes
withdrawn and nothing else); it returns them only when the caller equals
the stored owner of the first such application, fails NotAllowed for any
other caller, and also fails NotAllowed when no non-withdrawn
application exists - even for the true owner. -/
theorem claim_C9_amended (user opId : String) (apps : List ApplicationDoc) :
    (appsForOpQuery opId apps =
      apps.filter (fun a => a.applicationFor == opId && a.status != AppStatus.withdrawn)) ∧
    (∀ first, (appsForOpQuery opId apps).head? = some first →
      (user = first.owner →
        getAppsForOp user opId apps = .ok (appsForOpQuery opId apps)) ∧
      (user ≠ first.owner →
        getAppsForOp user opId apps =
          .err (.notAllowed "Not owner of opportunity so can't access this information"))) ∧
    ((appsForOpQuery opId apps).head? = none →
      getAppsForOp user opId apps =
        .err (.notAllowed "Not owner of opportunity so can't access this information")) := by
  refine ⟨?_, fun first hfirst => ⟨fun heq => ?_, fun hne => ?_⟩, fun hnone => ?_⟩
  · unfold appsForOpQuery
    congr 1
    funext a
    cases a.status <;> simp [statusInNonWithdrawn]
  · simp [getAppsForOp, hfirst, heq]
  · simp [getAppsForOp, hfirst, hne]
  · simp [getAppsForOp, hnone]

/-- Claim C9 (amended, witness): the amended theorem applied at the
counterexample collection: the withdrawn application is filtered away
and the owner receives only the pending one. -/
theorem claim_C9_amended_witness :
    getAppsForOp "o" "op"
        [⟨"a1", "o", "u1", .withdrawn, "t", [], "op"⟩,
         ⟨"a2", "o", "u2", .pending, "t", [], "op"⟩] =
      .ok (appsForOpQuery "op"
        [⟨"a1", "o", "u1", .withdrawn, "t", [], "op"⟩,
         ⟨"a2", "o", "u2", .pending, "t", [], "op"⟩]) :=
  (((claim_C9_amended "o" "op"
      [⟨"a1", "o", "u1", .withdrawn, "t", [], "op"⟩,
       ⟨"a2", "o", "u2", .pending, "t", [], "op"⟩]).2.1
    ⟨"a2", "o", "u2", .pending, "t", [], "op"⟩ (by decide)).1 (by decide))

/-- Claim C10: getAppById throws NotAllowed for every caller and every
application id, including the stored owner and applicant: the access
test `user.toString() in [owner, creator]` checks the property keys of a
two-element array literal, and a 24-character id string is never such a
key, so the success branch is unreachable. -/
theorem claim_C10_main (apps : List ApplicationDoc) (_id user : String)
    (huser : user.length = 24) :
    getAppById _id user apps =
      .err (.notAllowed "Not owner or applier. So can't view application") := by
  unfold getAppById
  simp [jsInArray_two_hex user huser]

/-- Claim C10 (witness): the theorem applied to a caller who IS the
stored owner of the stored application, with a 24-hex-character id: the
lookup still fails NotAllowed. -/
theorem claim_C10_witness :
    getAppById "a1" "aaaaaaaaaaaaaaaa11112222"
        [⟨"a1", "aaaaaaaaaaaaaaaa11112222", "uu", .pending, "t", [], "op"⟩] =
      .err (.notAllowed "Not owner or applier. So can't view application") :=
  claim_C10_main
    [⟨"a1", "aaaaaaaaaaaaaaaa11112222", "uu", .pending, "t", [], "op"⟩]
    "a1" "aaaaaaaaaaaaaaaa11112222" (by decide)

/- ===== ConnectionConcept (src/unnamed/part_006) ===== -/

/-- ConnectionDoc of src/unnamed/part_006, lines 5-8: an unordered pair
stored as user1/user2. -/
structure ConnectionDoc : Type where
  user1 : Nat
  user2 : Nat
  deriving Repr, DecidableEq

/-- Status of a connection request. -/
inductive ReqStatus : Type where
  | pending
  | accepted
  | rejected
  deriving Repr, DecidableEq

/-- ConnectionRequestDoc of src/unnamed/part_006, lines 10-14.  The
source fields are named from/to; `from` is a Lean keyword, so they are
renamed fromUser/toUser. -/
structure ConnectionRequestDoc : Type where
  fromUser : Nat
  toUser : Nat
  status : ReqStatus
  deriving Repr, DecidableEq

/-- The two collections owned by ConnectionConcept. -/
structure ConnState : Type where
  connection : List ConnectionDoc
  requests : List ConnectionRequestDoc
  deriving Repr, DecidableEq

/-- Modelled from the spec: the document-storage driver
(src/server/framework/doc, absent from the snapshot) passes filters
through to MongoDB, where an equality condition on a field the document
does not carry matches nothing.  A stored connection document carries
exactly the fields user1 and user2, so looking up any other field name
yields no value. -/
def ConnectionDoc.field (d : ConnectionDoc) (name : String) : Option Nat :=
  if name == "user1" then some d.user1
  else if name == "user2" then some d.user2
  else none

/-- One disjunct of the isNotConnected readOne filter (lines 138-143):
the document's `from` field equals a and its `to` field equals b.
Connection documents carry no such fields, so this never matches. -/
def connFromToMatch (d : ConnectionDoc) (a b : Nat) : Bool :=
  d.field "from" == some a && d.field "to" == some b

/-- ConnectionConcept.isNotConnected (lines 137-147): readOne with the
from/to $or filter over the connection collection, then throw
AlreadyConnectedError when a document matched or the two users are the
same. -/
def isNotConnected (u1 u2 : Nat) (s : ConnState) : Res Unit :=
  let connection := s.connection.find?
    (fun d => connFromToMatch d u1 u2 || connFromToMatch d u2 u1)
  if connection.isSome || u1 == u2 then
    .err (.notAllowed "already connected!")
  else
    .ok ()

/-- ConnectionConcept.canSendRequest (lines 156-167): isNotConnected,
then throw when a pending request exists between the pair in either
direction. -/
def canSendRequest (u1 u2 : Nat) (s : ConnState) : Res Unit :=
  match isNotConnected u1 u2 s with
  | .err e => .err e
  | .ok _ =>
    let request := s.requests.find? (fun r =>
      (r.fromUser == u1 || r.fromUser == u2) &&
      (r.toUser == u1 || r.toUser == u2) &&
      r.status == .pending)
    if request.isSome then
      .err (.notAllowed "Connection request already exists!")
    else
      .ok ()

/-- ConnectionConcept.sendRequest (lines 35-39): check, then create the
pending request. -/
def sendRequest (fromUser toUser : Nat) (s : ConnState) :
    Res (String × ConnState) :=
  match canSendRequest fromUser toUser s with
  | .err e => .err e
  | .ok _ =>
    .ok ("Sent request!",
      { s with requests := s.requests ++ [⟨fromUser, toUser, .pending⟩] })

/-- this.requests.popOne of the pending filter: remove the first pending
request of the ordered pair, or report that none exists. -/
def popPendingRequest (fromUser toUser : Nat)
    (reqs : List ConnectionRequestDoc) : Option (List ConnectionRequestDoc) :=
  match reqs with
  | [] => none
  | r :: rest =>
    if r.fromUser == fromUser && r.toUser == toUser && r.status == .pending then
      some rest
    else
      (popPendingRequest fromUser toUser rest).map (fun rest2 => r :: rest2)

/-- ConnectionConcept.acceptRequest (lines 47-52): pop the pending
request (NotFound when absent), then create the accepted request record
and the symmetric connection row (the source fires both writes with
`void`, but they execute). -/
def acceptRequest (fromUser toUser : Nat) (s : ConnState) :
    Res (String × ConnState) :=
  match popPendingRequest fromUser toUser s.requests with
  | none => .err (.notFound "Connection request does not exist!")
  | some rest =>
    .ok ("Accepted request!",
      { connection := s.connection ++ [⟨fromUser, toUser⟩],
        requests := rest ++ [⟨fromUser, toUser, .accepted⟩] })

/-- ConnectionConcept.getConnections (lines 102-107): the other party of
every connection row touching the user. -/
def getConnections (user : Nat) (s : ConnState) : List Nat :=
  (s.connection.filter (fun c => c.user1 == user || c.user2 == user)).map
    (fun c => if c.user1 == user then c.user2 else c.user1)

/-- Claim C3 (code evaluation at the failing input): users 0 and 1,
starting from empty collections.  sendRequest(0,1) then acceptRequest
(0,1) make getConnections symmetric as the claim states - but the
second sendRequest(0,1) SUCCEEDS and stores a fresh pending request
instead of failing NotAllowed: the already-connected check reads the
connection collection by the field names from/to while the documents
carry user1/user2, so it never matches. -/
theorem claim_C3_main :
    sendRequest 0 1 ⟨[], []⟩ =
      .ok ("Sent request!", ⟨[], [⟨0, 1, .pending⟩]⟩) ∧
    acceptRequest 0 1 ⟨[], [⟨0, 1, .pending⟩]⟩ =
      .ok ("Accepted request!", ⟨[⟨0, 1⟩], [⟨0, 1, .accepted⟩]⟩) ∧
    getConnections 0 ⟨[⟨0, 1⟩], [⟨0, 1, .accepted⟩]⟩ = [1] ∧
    getConnections 1 ⟨[⟨0, 1⟩], [⟨0, 1, .accepted⟩]⟩ = [0] ∧
    sendRequest 0 1 ⟨[⟨0, 1⟩], [⟨0, 1, .accepted⟩]⟩ =
      .ok ("Sent request!", ⟨[⟨0, 1⟩], [⟨0, 1, .accepted⟩, ⟨0, 1, .pending⟩]⟩) := by
  decide

/- ===== QueueConcept (src/server/concepts/queue.ts) ===== -/

/-- Milliseconds per hour. -/
def msPerHour : Nat := 3600000

/-- The hour-of-day field of a Date given as milliseconds since the
epoch (timezone offset zero). -/
def jsHoursField (d : Nat) : Nat := d / msPerHour % 24

/-- JavaScript Date.setHours(h): replace the hour-of-day field by h,
keeping the day and the sub-hour part; an h of 24 or more rolls over
into the following days. -/
def jsSetHours (d h : Nat) : Nat :=
  d - jsHoursField d * msPerHour + h * msPerHour

/-- QueueDoc of src/server/concepts/queue.ts, lines 6-14. -/
structure QueueDoc : Type where
  queueManager : Nat
  queueFor : Nat
  queue : List Nat
  startTime : Nat
  timePerPerson : Nat
  currentPosition : Nat
  totalQueued : Nat
  deriving Repr, DecidableEq

/-- this.queues.readOne of a queueFor filter: first queue stored for the
opportunity. -/
def queuesReadOne (qs : List QueueDoc) (queueFor : Nat) : Option QueueDoc :=
  qs.find? (fun q => q.queueFor == queueFor)

/-- this.queues.updateOne of a queueFor filter with a currentPosition
patch: set the position of the first matching stored queue. -/
def queuesUpdatePosition (qs : List QueueDoc) (queueFor newPosition : Nat) :
    List QueueDoc :=
  match qs with
  | [] => []
  | q :: rest =>
    if q.queueFor == queueFor then
      { q with currentPosition := newPosition } :: rest
    else
      q :: queuesUpdatePosition rest queueFor newPosition

/-- QueueConcept.create (lines 28-34): refuse a duplicate queue for the
opportunity, else store the queue with currentPosition 0 and totalQueued
the length of the applicant list. -/
def queueCreate (queueManager queueFor : Nat) (queue : List Nat)
    (startTime timePerPerson : Nat) (qs : List QueueDoc) :
    Res (List QueueDoc) :=
  if (queuesReadOne qs queueFor).isSome then
    .err (.notAllowed "There already exists a queue")
  else
    .ok (qs ++ [⟨queueManager, queueFor, queue, startTime, timePerPerson, 0,
      queue.length⟩])

/-- QueueConcept.getEstimatedTime (lines 43-55): find the user's 0-based
index (the source maps ids to strings first; id-string equality is id
equality), fail NotInQueueError (a NotAllowedError) when absent, else
return `new Date(startTime)` with setHours(posInQueue * timePerPerson)
applied - the hour-of-day is REPLACED, not added to. -/
def getEstimatedTime (queueFor user : Nat) (qs : List QueueDoc) : Res Nat :=
  match queuesReadOne qs queueFor with
  | none => .err (.notFound "There is no queue")
  | some q =>
    match q.queue.findIdx? (fun x => x == user) with
    | some index =>
      let posInQueue := index + 1
      let hrsFromStart := posInQueue * q.timePerPerson
      .ok (jsSetHours q.startTime hrsFromStart)
    | none => .err (.notAllowed "is not in the queue")

/-- Return value of progressQueue: the next person (or none) and the
person just reached. -/
structure ProgressResult : Type where
  next : Option Nat
  current : Option Nat
  deriving Repr, DecidableEq

/-- QueueConcept.progressQueue (lines 65-78): manager check first, then
refuse when the incremented position would pass totalQueued, else store
the new position and return the now-current applicant plus the next. -/
def progressQueue (user queueFor : Nat) (qs : List QueueDoc) :
    Res (ProgressResult × List QueueDoc) :=
  match queuesReadOne qs queueFor with
  | none => .err (.notFound "There is no queue")
  | some q =>
    if q.queueManager != user then
      .err (.notAllowed "is not the manager of this queue!")
    else
      let newPosition := q.currentPosition + 1
      if q.totalQueued < newPosition then
        .err (.notAllowed "Went through everyone in queue;")
      else
        .ok (⟨q.queue[newPosition]?, q.queue[newPosition - 1]?⟩,
          queuesUpdatePosition qs queueFor newPosition)

/-- Claim C4 (counterexample): one queue for opportunity 10, startTime
09:00 of epoch day zero, two hours per person, user 5 at 1-based index
1.  The claim predicts startTime + 1*2 hours = 11:00, but the code
returns 02:00 of the same day: setHours replaced the hour field. -/
theorem claim_C4_counterexample :
    getEstimatedTime 10 5 [⟨0, 10, [5], 9 * msPerHour, 2, 0, 1⟩] =
      .ok (2 * msPerHour) ∧
    2 * msPerHour ≠ 9 * msPerHour + 1 * 2 * msPerHour := by
  decide

/-- Claim C4 (amended): for the stored queue of the opportunity and a
user at 0-based index k of its applicant order, getEstimatedTime returns
the queue's startTime with its hour-of-day field REPLACED by
(k+1)*timePerPerson (rolling over into following days), and fails
NotAllowed (NotInQueue) when the user is absent from the order. -/
theorem claim_C4_amended (qs : List QueueDoc) (queueFor user : Nat)
    (q : QueueDoc) (hq : queuesReadOne qs queueFor = some q) :
    (∀ k, q.queue.findIdx? (fun x => x == user) = some k →
      getEstimatedTime queueFor user qs =
        .ok (jsSetHours q.startTime ((k + 1) * q.timePerPerson))) ∧
    (q.queue.findIdx? (fun x => x == user) = none →
      getEstimatedTime queueFor user qs =
        .err (.notAllowed "is not in the queue")) := by
  constructor
  · intro k hk
    simp [getEstimatedTime, hq, hk]
  · intro hk
    simp [getEstimatedTime, hq, hk]

/-- Claim C4 (amended, witness): the amended theorem applied at the
counterexample queue: user 5 gets hour-of-day 2, and user 6 (absent)
fails NotAllowed. -/
theorem claim_C4_amended_witness :
    getEstimatedTime 10 5 [⟨0, 10, [5], 9 * msPerHour, 2, 0, 1⟩] =
      .ok (jsSetHours (9 * msPerHour) ((0 + 1) * 2)) ∧
    getEstimatedTime 10 6 [⟨0, 10, [5], 9 * msPerHour, 2, 0, 1⟩] =
      .err (.notAllowed "is not in the queue") :=
  ⟨(claim_C4_amended [⟨0, 10, [5], 9 * msPerHour, 2, 0, 1⟩] 10 5
      ⟨0, 10, [5], 9 * msPerHour, 2, 0, 1⟩ (by decide)).1 0 (by decide),
   (claim_C4_amended [⟨0, 10, [5], 9 * msPerHour, 2, 0, 1⟩] 10 6
      ⟨0, 10, [5], 9 * msPerHour, 2, 0, 1⟩ (by decide)).2 (by decide)⟩

/-- Claim C5: a freshly created queue stores currentPosition 0 and
totalQueued = N; from position n < N a manager call returns applicant n
(0-based, i.e. the applicants come out in original order over N
successive calls) and advances the stored position to n+1, never past
totalQueued; from position N the next call fails NotAllowed (exhausted);
and a caller other than the stored manager always fails NotAllowed, at
every position. -/
theorem claim_C5_main (mgr op st tpp u n : Nat) (apps : List Nat) :
    (queueCreate mgr op apps st tpp [] =
      .ok [⟨mgr, op, apps, st, tpp, 0, apps.length⟩]) ∧
    (n < apps.length →
      progressQueue mgr op [⟨mgr, op, apps, st, tpp, n, apps.length⟩] =
        .ok (⟨apps[n + 1]?, apps[n]?⟩,
          [⟨mgr, op, apps, st, tpp, n + 1, apps.length⟩]) ∧
      n + 1 ≤ apps.length) ∧
    (progressQueue mgr op [⟨mgr, op, apps, st, tpp, apps.length, apps.length⟩] =
      .err (.notAllowed "Went through everyone in queue;")) ∧
    (u ≠ mgr →
      progressQueue u op [⟨mgr, op, apps, st, tpp, n, apps.length⟩] =
        .err (.notAllowed "is not the manager of this queue!")) := by
  refine ⟨?_, fun hn => ⟨?_, hn⟩, ?_, fun hu => ?_⟩
  · simp [queueCreate, queuesReadOne]
  · simp [progressQueue, queuesReadOne, queuesUpdatePosition,
      Nat.not_lt.mpr hn]
  · simp [progressQueue, queuesReadOne]
  · simp [progressQueue, queuesReadOne, bne_iff_ne, Ne.symm hu]

/-- Claim C5 (witness): the theorem applied to the two-applicant queue
[4, 5] of manager 0 for opportunity 1: the first call from position 0
returns applicant 4 and advances to position 1, the call from position 2
(= totalQueued) is refused, and caller 3 is refused as not the
manager. -/
theorem claim_C5_witness :
    (progressQueue 0 1 [⟨0, 1, [4, 5], 7, 2, 0, 2⟩] =
      .ok (⟨some 5, some 4⟩, [⟨0, 1, [4, 5], 7, 2, 1, 2⟩])) ∧
    (progressQueue 0 1 [⟨0, 1, [4, 5], 7, 2, 2, 2⟩] =
      .err (.notAllowed "Went through everyone in queue;")) ∧
    (progressQueue 3 1 [⟨0, 1, [4, 5], 7, 2, 0, 2⟩] =
      .err (.notAllowed "is not the manager of this queue!")) :=
  ⟨((claim_C5_main 0 1 7 2 3 0 [4, 5]).2.1 (by decide)).1,
   (claim_C5_main 0 1 7 2 3 0 [4, 5]).2.2.1,
   (claim_C5_main 0 1 7 2 3 0 [4, 5]).2.2.2 (by decide)⟩

/- ===== OpportunityConcept (src/server/concepts/opportunity.ts) =====
   The file concatenates two variants of the class: the first at lines
   23-245 and the second at lines 284-483.  Both are embedded. -/

/-- Milliseconds per day. -/
def msPerDay : Nat := 86400000

/-- Requirements struct of src/server/concepts/opportunity.ts. -/
structure Requirements : Type where
  physical : List String
  skill : List String
  location : String
  deriving Repr, DecidableEq

/-- OpportunityDoc of src/server/concepts/opportunity.ts, lines 12-21,
with its _id made explicit; dates are milliseconds since the epoch. -/
structure OpportunityDoc : Type where
  id : Nat
  user : Nat
  title : String
  description : String
  startOn : Nat
  endsOn : Nat
  expiresOn : Nat
  requirements : Requirements
  isActive : Bool
  deriving Repr, DecidableEq

/-- A partial update object (Partial of OpportunityDoc): present fields
are some. -/
structure OpportunityUpdate : Type where
  user : Option Nat := none
  title : Option String := none
  description : Option String := none
  startOn : Option Nat := none
  endsOn : Option Nat := none
  expiresOn : Option Nat := none
  requirements : Option Requirements := none
  isActive : Option Bool := none
  deriving Repr, DecidableEq

/-- The enumerable keys of a partial update object, as the for..in loop
of sanitizeUpdate sees them. -/
def OpportunityUpdate.keys (u : OpportunityUpdate) : List String :=
  (if u.user.isSome then ["user"] else []) ++
  (if u.title.isSome then ["title"] else []) ++
  (if u.description.isSome then ["description"] else []) ++
  (if u.startOn.isSome then ["startOn"] else []) ++
  (if u.endsOn.isSome then ["endsOn"] else []) ++
  (if u.expiresOn.isSome then ["expiresOn"] else []) ++
  (if u.requirements.isSome then ["requirements"] else []) ++
  (if u.isActive.isSome then ["isActive"] else [])

/-- Applying an update object to a stored document: present fields
replace stored ones. -/
def applyUpdate (d : OpportunityDoc) (u : OpportunityUpdate) :
    OpportunityDoc :=
  ⟨d.id, u.user.getD d.user, u.title.getD d.title,
   u.description.getD d.description, u.startOn.getD d.startOn,
   u.endsOn.getD d.endsOn, u.expiresOn.getD d.expiresOn,
   u.requirements.getD d.requirements, u.isActive.getD d.isActive⟩

/-- this.opportunities.readOne of an _id filter: first stored
opportunity with that id. -/
def opsReadOne (ops : List OpportunityDoc) (_id : Nat) :
    Option OpportunityDoc :=
  ops.find? (fun o => o.id == _id)

/-- this.opportunities.updateOne of an _id filter: apply the update to
the first matching stored opportunity. -/
def opsUpdateOne (ops : List OpportunityDoc) (_id : Nat)
    (upd : OpportunityUpdate) : List OpportunityDoc :=
  match ops with
  | [] => []
  | o :: rest =>
    if o.id == _id then
      applyUpdate o upd :: rest
    else
      o :: opsUpdateOne rest _id upd

/-- updateOne with an isActive-only patch, as the deactivate paths issue
it. -/
def opsSetActive (ops : List OpportunityDoc) (_id : Nat) (b : Bool) :
    List OpportunityDoc :=
  opsUpdateOne ops _id ⟨none, none, none, none, none, none, none, some b⟩

/-- OpportunityConcept.checkDateValidity (first variant lines 240-244,
second variant lines 478-482, identical logic): throw NotAllowed when
start is greater than or equal to end. -/
def checkDateValidity (startOn endsOn : Nat) : Res Unit :=
  if startOn ≥ endsOn then
    .err (.notAllowed "is greater than or equal to, which isn't a valid input!")
  else
    .ok ()

/-- OpportunityConcept.sanitizeUpdate (first variant lines 196-203):
throw NotAllowed on any key outside the allow-list.  The allow-list
entry for the end date is misspelled "endOn" in the source, while the
document field (and the date checks of update) spell it "endsOn". -/
def sanitizeUpdate (upd : OpportunityUpdate) : Res Unit :=
  if upd.keys.all
      (fun k => (["description", "startOn", "endOn", "requirements"]).contains k) then
    .ok ()
  else
    .err (.notAllowed "Cannot update field!")

/-- The date-validation branch shared by update of both variants
(first variant lines 118-124, second variant lines 378-384): both dates
supplied - check them against each other; one supplied - check it
against the stored counterpart; none - no check. -/
def dateBranch (upd : OpportunityUpdate) (oldOp : OpportunityDoc) : Res Unit :=
  if upd.startOn.isSome && upd.endsOn.isSome then
    checkDateValidity (upd.startOn.getD 0) (upd.endsOn.getD 0)
  else if upd.startOn.isSome && !upd.endsOn.isSome then
    checkDateValidity (upd.startOn.getD 0) oldOp.endsOn
  else if !upd.startOn.isSome && upd.endsOn.isSome then
    checkDateValidity oldOp.startOn (upd.endsOn.getD 0)
  else
    .ok ()

/-- OpportunityConcept.create, first variant (lines 37-48): BadValues
when title or description is empty (Date arguments are always truthy),
then the date check, then store the opportunity with expiresOn = now +
14 days and isActive = true. -/
def opportunityCreate1 (user : Nat) (title description : String)
    (startOn endsOn : Nat) (requirements : Requirements) (now newId : Nat)
    (ops : List OpportunityDoc) : Res (List OpportunityDoc) :=
  if !(title != "" && description != "") then
    .err (.badValues "missing a required input")
  else
    match checkDateValidity startOn endsOn with
    | .err e => .err e
    | .ok _ =>
      .ok (ops ++ [⟨newId, user, title, description, startOn, endsOn,
        now + 14 * msPerDay, requirements, true⟩])

/-- OpportunityConcept.create, second variant (lines 298-306): as the
first variant but without the BadValues guard. -/
def opportunityCreate2 (user : Nat) (title description : String)
    (startOn endsOn : Nat) (requirements : Requirements) (now newId : Nat)
    (ops : List OpportunityDoc) : Res (List OpportunityDoc) :=
  match checkDateValidity startOn endsOn with
  | .err e => .err e
  | .ok _ =>
    .ok (ops ++ [⟨newId, user, title, description, startOn, endsOn,
      now + 14 * msPerDay, requirements, true⟩])

/-- OpportunityConcept.update, first variant (lines 115-127):
sanitizeUpdate first, then the existence and ownership checks
(OpportunityDoestExistError extends NotAllowedError in this file), then
the date branch, then updateOne. -/
def opportunityUpdate1 (_id user : Nat) (upd : OpportunityUpdate)
    (ops : List OpportunityDoc) : Res (String × List OpportunityDoc) :=
  match sanitizeUpdate upd with
  | .err e => .err e
  | .ok _ =>
    match opsReadOne ops _id with
    | none => .err (.notAllowed "Opportunity doesn't exist!")
    | some oldOp =>
      if oldOp.user != user then
        .err (.notAllowed "Opportunity isn't owned by this user!")
      else
        match dateBranch upd oldOp with
        | .err e => .err e
        | .ok _ => .ok ("Opportunity updated successfully!", opsUpdateOne ops _id upd)

/-- OpportunityConcept.update, second variant (lines 373-389): no
sanitizeUpdate; existence, ownership, date branch, updateOne.  The
repeated readOne calls of the source all return the same first match. -/
def opportunityUpdate2 (_id user : Nat) (upd : OpportunityUpdate)
    (ops : List OpportunityDoc) : Res (String × List OpportunityDoc) :=
  match opsReadOne ops _id with
  | none => .err (.notAllowed "Opportunity doesn't exist!")
  | some oldOp =>
    if oldOp.user != user then
      .err (.notAllowed "Opportunity isn't owned by this user!")
    else
      match dateBranch upd oldOp with
      | .err e => .err e
      | .ok _ => .ok ("Opportunity updated successfully!", opsUpdateOne ops _id upd)

/-- OpportunityConcept.deactivate, first variant (lines 135-151).  With
a user: ownership check, then set inactive unconditionally.  Without a
user (system sweep): set inactive exactly when currently active and
expiresOn < now, else leave the collection unchanged and return no
message (the source returns undefined). -/
def deactivate1 (_id : Nat) (userOpt : Option Nat) (now : Nat)
    (ops : List OpportunityDoc) : Res (Option String × List OpportunityDoc) :=
  match userOpt with
  | some user =>
    match opsReadOne ops _id with
    | none => .err (.notAllowed "Opportunity doesn't exist!")
    | some op =>
      if op.user != user then
        .err (.notAllowed "Opportunity isn't owned by this user!")
      else
        .ok (some "Opportunity deactivated successfully!", opsSetActive ops _id false)
  | none =>
    match opsReadOne ops _id with
    | none => .err (.notAllowed "Opportunity doesn't exist!")
    | some op =>
      if op.isActive && decide (op.expiresOn < now) then
        .ok (some "Opportunity exipred -> deactivated successfully!",
          opsSetActive ops _id false)
      else
        .ok (none, ops)

/-- OpportunityConcept.deactivate, second variant (lines 399-414).  With
a user: delegate to update with an isActive patch (ownership enforced
there).  Without a user: getById (no throw when absent - the source just
returns undefined), then set inactive when currently active and
`expiresOn >= currentDate`, i.e. when the opportunity has NOT yet
expired - the comparison is inverted relative to the first variant and
to the function's own doc comment. -/
def deactivate2 (_id : Nat) (userOpt : Option Nat) (now : Nat)
    (ops : List OpportunityDoc) : Res (Option String × List OpportunityDoc) :=
  match userOpt with
  | some user =>
    match opportunityUpdate2 _id user
        ⟨none, none, none, none, none, none, none, some false⟩ ops with
    | .err e => .err e
    | .ok (_, ops2) => .ok (some "Opportunity deactivated successfully!", ops2)
  | none =>
    match opsReadOne ops _id with
    | none => .ok (none, ops)
    | some op =>
      if op.isActive && decide (now ≤ op.expiresOn) then
        .ok (some "Opportunity deactivated successfully!",
          opsSetActive ops _id false)
      else
        .ok (none, ops)

/-- Claim C6 (code evaluation): opportunity 1 owned by user 7, active,
expiresOn = 100.  The first deactivate variant behaves as the claim
states: the system sweep at now = 50 (not yet expired) leaves it
unchanged, at now = 150 (expired) deactivates it; owner 7 deactivates
unconditionally and user 8 fails NotOwner.  The second variant INVERTS
the sweep: at now = 50 it deactivates the unexpired opportunity and at
now = 150 it leaves the expired one active. -/
theorem claim_C6_main :
    deactivate1 1 none 50 [⟨1, 7, "t", "d", 0, 10, 100, ⟨[], [], "x"⟩, true⟩] =
      .ok (none, [⟨1, 7, "t", "d", 0, 10, 100, ⟨[], [], "x"⟩, true⟩]) ∧
    deactivate1 1 none 150 [⟨1, 7, "t", "d", 0, 10, 100, ⟨[], [], "x"⟩, true⟩] =
      .ok (some "Opportunity exipred -> deactivated successfully!",
        [⟨1, 7, "t", "d", 0, 10, 100, ⟨[], [], "x"⟩, false⟩]) ∧
    deactivate1 1 (some 7) 50 [⟨1, 7, "t", "d", 0, 10, 100, ⟨[], [], "x"⟩, true⟩] =
      .ok (some "Opportunity deactivated successfully!",
        [⟨1, 7, "t", "d", 0, 10, 100, ⟨[], [], "x"⟩, false⟩]) ∧
    deactivate1 1 (some 8) 50 [⟨1, 7, "t", "d", 0, 10, 100, ⟨[], [], "x"⟩, true⟩] =
      .err (.notAllowed "Opportunity isn't owned by this user!") ∧
    deactivate2 1 none 50 [⟨1, 7, "t", "d", 0, 10, 100, ⟨[], [], "x"⟩, true⟩] =
      .ok (some "Opportunity deactivated successfully!",
        [⟨1, 7, "t", "d", 0, 10, 100, ⟨[], [], "x"⟩, false⟩]) ∧
    deactivate2 1 none 150 [⟨1, 7, "t", "d", 0, 10, 100, ⟨[], [], "x"⟩, true⟩] =
      .ok (none, [⟨1, 7, "t", "d", 0, 10, 100, ⟨[], [], "x"⟩, true⟩]) := by
  decide

/-- The stored date invariant: every opportunity in the collection
starts before it ends. -/
def datesOk (ops : List OpportunityDoc) : Prop :=
  ∀ o ∈ ops, o.startOn < o.endsOn

/-- A sanitized update carries no endsOn: the allow-list spells the key
"endOn" while the update object's key is "endsOn". -/
theorem sanitize_ok_endsOn_none (upd : OpportunityUpdate)
    (h : sanitizeUpdate upd = .ok ()) : upd.endsOn = none := by
  rcases he : upd.endsOn with _ | v
  · rfl
  · exfalso
    unfold sanitizeUpdate at h
    split at h
    next hall =>
      have hmem : "endsOn" ∈ upd.keys := by
        unfold OpportunityUpdate.keys
        simp [he]
      have hc := List.all_eq_true.mp hall _ hmem
      exact absurd hc (by decide)
    next => exact Res.noConfusion h

/-- When the update carries no endsOn and the date branch passed, the
updated document still starts before it ends. -/
theorem applyUpdate_dates (upd : OpportunityUpdate) (oldOp : OpportunityDoc)
    (hend : upd.endsOn = none) (hok : dateBranch upd oldOp = .ok ())
    (hold : oldOp.startOn < oldOp.endsOn) :
    (applyUpdate oldOp upd).startOn < (applyUpdate oldOp upd).endsOn := by
  rcases hs : upd.startOn with _ | s
  · simp [applyUpdate, hend, hs, hold]
  · unfold dateBranch at hok
    rw [hs, hend] at hok
    simp at hok
    unfold checkDateValidity at hok
    split at hok
    next => exact Res.noConfusion hok
    next hge =>
      simp only [applyUpdate, hend, hs, Option.getD_some, Option.getD_none]
      exact Nat.lt_of_not_le hge

/-- updateOne preserves the date invariant provided the rewritten first
match still satisfies it. -/
theorem datesOk_opsUpdateOne (ops : List OpportunityDoc) (_id : Nat)
    (upd : OpportunityUpdate) (hops : datesOk ops)
    (hnew : ∀ o, opsReadOne ops _id = some o →
      (applyUpdate o upd).startOn < (applyUpdate o upd).endsOn) :
    datesOk (opsUpdateOne ops _id upd) := by
  induction ops with
  | nil => intro o ho; cases ho
  | cons a rest ih =>
    intro o ho
    unfold opsUpdateOne at ho
    by_cases hid : (a.id == _id) = true
    · rw [if_pos hid] at ho
      rcases List.mem_cons.mp ho with h1 | h2
      · subst h1
        exact hnew a (by simp [opsReadOne, List.find?, hid])
      · exact hops o (List.mem_cons_of_mem a h2)
    · rw [if_neg hid] at ho
      rcases List.mem_cons.mp ho with h1 | h2
      · exact hops o (List.mem_cons.mpr (Or.inl h1))
      · refine ih (fun x hx => hops x (List.mem_cons_of_mem a hx))
          (fun x hx => hnew x ?_) o h2
        simpa [opsReadOne, List.find?, hid] using hx

/-- A passed date check means the start is strictly before the end. -/
theorem checkDateValidity_ok (s e : Nat) (h : checkDateValidity s e = .ok ()) :
    s < e := by
  unfold checkDateValidity at h
  split at h
  next => exact Res.noConfusion h
  next hge => exact Nat.lt_of_not_le hge

/-- Claim C7: (1) create of either variant always fails when startOn is
not before endsOn; (2,3) create and update of the first variant preserve
the stored invariant startOn < endsOn over the whole collection; (4) an
update supplying only startOn re-validates it against the unchanged
stored endsOn: it succeeds when the new start is before the stored end
and fails NotAllowed otherwise; BUT (5) an update supplying only endsOn
never reaches the claimed re-validation: sanitizeUpdate rejects the key
"endsOn" (its allow-list misspells it "endOn"), so the call fails
NotAllowed even when the stored startOn is before the new endsOn. -/
theorem claim_C7_main :
    (∀ user title description s e reqs now newId ops, e ≤ s →
      (opportunityCreate1 user title description s e reqs now newId ops).isOk
        = false ∧
      (opportunityCreate2 user title description s e reqs now newId ops).isOk
        = false) ∧
    (∀ user title description s e reqs now newId ops ops', datesOk ops →
      opportunityCreate1 user title description s e reqs now newId ops
        = .ok ops' →
      datesOk ops') ∧
    (∀ _id user upd ops msg ops', datesOk ops →
      opportunityUpdate1 _id user upd ops = .ok (msg, ops') →
      datesOk ops') ∧
    (∀ _id user ops s op, opsReadOne ops _id = some op → op.user = user →
      (s < op.endsOn →
        opportunityUpdate1 _id user
            ⟨none, none, none, some s, none, none, none, none⟩ ops =
          .ok ("Opportunity updated successfully!",
            opsUpdateOne ops _id
              ⟨none, none, none, some s, none, none, none, none⟩)) ∧
      (op.endsOn ≤ s →
        (opportunityUpdate1 _id user
            ⟨none, none, none, some s, none, none, none, none⟩ ops).isNotAllowed
          = true)) ∧
    (opportunityUpdate1 1 7 ⟨none, none, none, none, some 20, none, none, none⟩
        [⟨1, 7, "t", "d", 1, 10, 100, ⟨[], [], "x"⟩, true⟩] =
      .err (.notAllowed "Cannot update field!") ∧
     (1 : Nat) < 20) := by
  refine ⟨?_, ?_, ?_, ?_, ?_⟩
  · intro user title description s e reqs now newId ops hle
    constructor
    · unfold opportunityCreate1
      split
      next => rfl
      next =>
        unfold checkDateValidity
        rw [if_pos hle]
        rfl
    · unfold opportunityCreate2 checkDateValidity
      rw [if_pos hle]
      rfl
  · intro user title description s e reqs now newId ops ops' hd hok
    unfold opportunityCreate1 at hok
    split at hok
    next => exact Res.noConfusion hok
    next =>
      rcases hc : checkDateValidity s e with ⟨⟩ | er
      · rw [hc] at hok
        have hlt := checkDateValidity_ok s e hc
        injection hok with h
        subst h
        intro o ho
        rcases List.mem_append.mp ho with h1 | h2
        · exact hd o h1
        · rcases List.mem_singleton.mp h2 with rfl
          exact hlt
      · rw [hc] at hok
        exact Res.noConfusion hok
  · intro _id user upd ops msg ops' hd hok
    unfold opportunityUpdate1 at hok
    split at hok
    next => exact Res.noConfusion hok
    next val hsan =>
      split at hok
      next => exact Res.noConfusion hok
      next oldOp hfind =>
        split at hok
        next => exact Res.noConfusion hok
        next howner =>
          split at hok
          next => exact Res.noConfusion hok
          next val2 hdb =>
            injection hok with h
            have h2 : ops' = opsUpdateOne ops _id upd :=
              (congrArg Prod.snd h).symm
            subst h2
            refine datesOk_opsUpdateOne ops _id upd hd (fun o hfo => ?_)
            rw [hfind] at hfo
            injection hfo with hfo2
            rw [← hfo2]
            have hsan2 : sanitizeUpdate upd = .ok () := by
              rw [hsan]
            have hdb2 : dateBranch upd oldOp = .ok () := by
              rw [hdb]
            exact applyUpdate_dates upd oldOp
              (sanitize_ok_endsOn_none upd hsan2) hdb2
              (hd oldOp (List.mem_of_find?_eq_some hfind))
  · intro _id user ops s op hfind hown
    constructor
    · intro hlt
      simp [opportunityUpdate1, sanitizeUpdate, OpportunityUpdate.keys,
        hfind, hown, dateBranch, checkDateValidity, Nat.not_le.mpr hlt]
    · intro hge
      simp [opportunityUpdate1, sanitizeUpdate, OpportunityUpdate.keys,
        hfind, hown, dateBranch, checkDateValidity, hge, Res.isNotAllowed]
  · exact ⟨by decide, by decide⟩

/-- Claim C7 (witness): the theorem's parts applied concretely: create
with equal dates fails in both variants; a startOn-only update of
opportunity 1 (stored dates 1 and 10) to startOn 5 succeeds and to
startOn 12 fails NotAllowed. -/
theorem claim_C7_witness :
    ((opportunityCreate1 7 "t" "d" 5 5 ⟨[], [], "x"⟩ 0 1 []).isOk = false) ∧
    ((opportunityCreate2 7 "t" "d" 5 5 ⟨[], [], "x"⟩ 0 1 []).isOk = false) ∧
    (opportunityUpdate1 1 7 ⟨none, none, none, some 5, none, none, none, none⟩
        [⟨1, 7, "t", "d", 1, 10, 100, ⟨[], [], "x"⟩, true⟩] =
      .ok ("Opportunity updated successfully!",
        opsUpdateOne [⟨1, 7, "t", "d", 1, 10, 100, ⟨[], [], "x"⟩, true⟩] 1
          ⟨none, none, none, some 5, none, none, none, none⟩)) ∧
    ((opportunityUpdate1 1 7 ⟨none, none, none, some 12, none, none, none, none⟩
        [⟨1, 7, "t", "d", 1, 10, 100, ⟨[], [], "x"⟩, true⟩]).isNotAllowed
      = true) :=
  ⟨(claim_C7_main.1 7 "t" "d" 5 5 ⟨[], [], "x"⟩ 0 1 [] (by decide)).1,
   (claim_C7_main.1 7 "t" "d" 5 5 ⟨[], [], "x"⟩ 0 1 [] (by decide)).2,
   ((claim_C7_main.2.2.2.1 1 7
      [⟨1, 7, "t", "d", 1, 10, 100, ⟨[], [], "x"⟩, true⟩] 5
      ⟨1, 7, "t", "d", 1, 10, 100, ⟨[], [], "x"⟩, true⟩ (by decide) rfl).1
      (by decide)),
   ((claim_C7_main.2.2.2.1 1 7
      [⟨1, 7, "t", "d", 1, 10, 100, ⟨[], [], "x"⟩, true⟩] 12
      ⟨1, 7, "t", "d", 1, 10, 100, ⟨[], [], "x"⟩, true⟩ (by decide) rfl).2
      (by decide))⟩

/- ===== FolderConcept (src/server/concepts/folder.ts) ===== -/

/-- PraticeFolderDoc of src/server/concepts/folder.ts, lines 6-14
(FolderDoc plus the numContents counter). -/
structure PraticeFolderDoc : Type where
  user : Nat
  contents : List Nat
  name : String
  numContents : Int
  deriving Repr, DecidableEq

/-- this.practiceFolders.readOne of a user filter: first stored practice
folder of the user. -/
def foldersReadOne (folders : List PraticeFolderDoc) (user : Nat) :
    Option PraticeFolderDoc :=
  folders.find? (fun f => f.user == user)

/-- this.practiceFolders.updateOne of a user filter with contents and
numContents patches: rewrite both fields of the first matching stored
folder. -/
def foldersUpdateOne (folders : List PraticeFolderDoc) (user : Nat)
    (contents : List Nat) (numContents : Int) : List PraticeFolderDoc :=
  match folders with
  | [] => []
  | f :: rest =>
    if f.user == user then
      { f with contents := contents, numContents := numContents } :: rest
    else
      f :: foldersUpdateOne rest user contents numContents

/-- JavaScript Array.splice(index, 1) RETURNS the removed elements, not
the remaining ones: the one-element list holding the item at the index
(empty when the index is past the end). -/
def jsSpliceReturn (l : List Nat) (index : Nat) : List Nat :=
  (l.drop index).take 1

/-- FolderConcept.removePractice (lines 148-158): find the user's
folder (NotFound when absent), locate the item (the source maps ids to
strings first; id-string equality is id equality), fail
NotInFolderError - a NotFoundError - when absent, else store
`newContents = practice.contents.splice(index, 1)` - the RETURN value of
splice, i.e. the removed element alone - as the folder's contents, with
numContents decremented. -/
def removePractice (user item : Nat) (folders : List PraticeFolderDoc) :
    Res (String × List PraticeFolderDoc) :=
  match foldersReadOne folders user with
  | none => .err (.notFound "The user doesn't have a practice folder yet")
  | some practice =>
    match practice.contents.findIdx? (fun x => x == item) with
    | some index =>
      let newContents := jsSpliceReturn practice.contents index
      .ok ("successfully removed the item given",
        foldersUpdateOne folders user newContents (practice.numContents - 1))
    | none => .err (.notFound "doesn't exist in the contents of the folder given")

/-- Claim C8 (code evaluation at the failing input): user 3's folder
holds items [7, 8] with numContents 2.  removePractice(3, 7) succeeds
and decrements the counter as the claim states, but the stored contents
become [7] - the removed item itself is the only element kept and item 8
is lost - because the source stores splice's return value.  Removing an
absent item fails NotFound as the claim states. -/
theorem claim_C8_main :
    removePractice 3 7 [⟨3, [7, 8], "Practice Folder", 2⟩] =
      .ok ("successfully removed the item given",
        [⟨3, [7], "Practice Folder", 1⟩]) ∧
    (7 ∈ ([7] : List Nat) ∧ 8 ∉ ([7] : List Nat)) ∧
    removePractice 3 9 [⟨3, [7, 8], "Practice Folder", 2⟩] =
      .err (.notFound "doesn't exist in the contents of the folder given") := by
  decide

end Stagelights
